import Mathlib

/-!
Shallow embedding of the resilient live-feed synchronizer of
`src/components/Dashboard.tsx` (solana-mev-dashboard), together with proofs
of the specified properties.

Conventions of the embedding:
* JavaScript numbers that are only carried around (amounts, balances) are
  modelled as `Rat`; integer-valued fields that are compared (`slot`,
  millisecond timestamps from `Date.getTime()`) are modelled as `Int`.
* A JavaScript value that may be `null`/`undefined`, or a field whose
  presence is checked at runtime, is modelled with `Option`.
* `JSON.parse` failures and the distinct shapes a Prometheus query result
  can take are modelled by small inductive types enumerating exactly the
  cases the source discriminates on.
-/

namespace Dashboard

/-- The `data.sandwich` payload of a live-feed message
(interface `SandwichData` in `Dashboard.tsx`). -/
structure Sandwich where
  mint : String
  slot : Int
  timestamp : Int
  frontrunInAmount : Rat
  frontrunOutAmount : Rat
  backrunInAmount : Rat
  backrunOutAmount : Rat
  solChange : Rat
  tokenChange : Rat
  isSell : Bool
deriving DecidableEq, Repr

/-- `data.permanentTokenData.rawTokenMetadata` of a live-feed message. -/
structure RawTokenMetadata where
  symbol : Option String
deriving DecidableEq, Repr

/-- `data.permanentTokenData` of a live-feed message. -/
structure PermanentTokenData where
  rawTokenMetadata : Option RawTokenMetadata
deriving DecidableEq, Repr

/-- The `data` object of a live-feed message.  The `sandwich` field is
`Option` because its presence is what `updateSandwiches` and `onmessage`
validate at runtime. -/
structure SandwichPayload where
  publicKey : Option String
  sandwich : Option Sandwich
  permanentTokenData : Option PermanentTokenData
deriving DecidableEq, Repr

/-- A parsed live-feed message / retained event record (TS `SandwichData`).
Fields are `Option` so that arbitrary parsed-JSON shapes are representable;
the code only ever relies on the fields after checking them. -/
structure SandwichData where
  type : Option String
  data : Option SandwichPayload
deriving DecidableEq, Repr

/-- The slot identity key of a record, when the record has the expected
shape (`s.data.sandwich.slot` in the source). -/
def sandwichSlot? (s : SandwichData) : Option Int :=
  match s.data with
  | some d =>
    match d.sandwich with
    | some sw => some sw.slot
    | none => none
  | none => none

/-- `updateSandwiches` (Dashboard.tsx lines 239-254).  The argument is
`Option SandwichData`: `none` models a `null`/`undefined` argument, which the
guard `newSandwich && newSandwich.data && newSandwich.data.sandwich`
rejects.  The `setSandwiches` functional updater is made explicit: `prev` is
the retained list, the result is the new retained list.  JS
`findIndex(...) === -1` corresponds to `findIdx? ... = none`. -/
def updateSandwiches (newSandwich : Option SandwichData)
    (prev : List SandwichData) : List SandwichData :=
  match newSandwich with
  | none => prev
  | some ns =>
    match sandwichSlot? ns with
    | none => prev
    | some slot =>
      match prev.findIdx? (fun s => sandwichSlot? s == some slot) with
      | none => (ns :: prev).take 50
      | some _ => prev

/-- Folding a sequence of `updateSandwiches` calls over an initial retained
list (each element of `msgs` is one append call, earliest first). -/
def appendAll (init : List SandwichData)
    (msgs : List (Option SandwichData)) : List SandwichData :=
  msgs.foldl (fun st m => updateSandwiches m st) init

/-- The content found in `localStorage` under `sandwichesData`, as the cases
`getInitialSandwiches` discriminates: key absent (`getItem` returns null),
unreadable (`getItem` or `JSON.parse` throws), parsed but not an array, or a
parsed array. -/
inductive CacheContent where
  | absent
  | unreadable
  | notArray
  | array (xs : List SandwichData)
deriving DecidableEq, Repr

/-- `getInitialSandwiches` (Dashboard.tsx lines 34-49): return the cached
array clamped to its first 50 entries, or `[]` in every other case. -/
def getInitialSandwiches : CacheContent → List SandwichData
  | .array xs => xs.take 50
  | _ => []

/-- An inbound push-channel message as seen by `websocket.onmessage`:
either `JSON.parse(event.data)` throws, or it yields a value (possibly
`null`, hence `Option SandwichData`). -/
inductive WireMessage where
  | unparseable
  | parsed (v : Option SandwichData)
deriving DecidableEq, Repr

/-- `websocket.onmessage` (Dashboard.tsx lines 298-310), restricted to its
effect on the retained list: parse errors and messages failing the
`data && data.data && data.data.sandwich` check are dropped (diagnostic
only); otherwise `updateSandwiches(data)` runs. -/
def onmessageUpdate (ev : WireMessage) (prev : List SandwichData) :
    List SandwichData :=
  match ev with
  | .unparseable => prev
  | .parsed v =>
    match v with
    | none => prev
    | some d =>
      match d.data with
      | none => prev
      | some p =>
        match p.sandwich with
        | none => prev
        | some _ => updateSandwiches (some d) prev

/-- The outcome of one fallback poll (`fetchSandwichesFallback`,
Dashboard.tsx lines 256-278): the instant query throws; or the result is not
a non-empty vector; or the first vector entry has no value; or the value's
payload string fails `JSON.parse`; or it parses to a value (possibly null). -/
inductive FallbackOutcome where
  | queryFailure
  | noVector
  | noValue
  | parseError
  | payload (v : Option SandwichData)
deriving DecidableEq, Repr

/-- `fetchSandwichesFallback`, restricted to its effect on the retained
list: only a successfully parsed payload reaches `updateSandwiches`; every
failure case is dropped with a diagnostic. -/
def fetchSandwichesFallbackUpdate (o : FallbackOutcome)
    (prev : List SandwichData) : List SandwichData :=
  match o with
  | .payload v => updateSandwiches v prev
  | _ => prev

/-- The localStorage write-through effect (Dashboard.tsx lines 213-220) has
dependency array `[sandwiches]`: React re-runs it only when the state value
changes (`Object.is` on the state reference).  Value-level model: the effect
writes when the new state differs from the previous one.  In the duplicate
branch the updater returns the previous array itself, so reference and value
equality agree there. -/
def saveEffectWrites (prev next : List SandwichData) : Bool :=
  !(prev == next)

/-- No two retained records share a slot identity key (records without the
expected shape have key `none` and are compared as such). -/
def noDupSlots (l : List SandwichData) : Prop :=
  (l.map sandwichSlot?).Nodup

instance (l : List SandwichData) : Decidable (noDupSlots l) :=
  inferInstanceAs (Decidable (l.map sandwichSlot?).Nodup)

/-- A concrete well-shaped record with the given slot, used for scenarios. -/
def mkRecord (slot : Int) : SandwichData :=
  { type := some "sandwich"
    data := some
      { publicKey := some "pk"
        sandwich := some
          { mint := "So11111111111111111111111111111111111111112"
            slot := slot
            timestamp := 1700000000
            frontrunInAmount := 1
            frontrunOutAmount := 2
            backrunInAmount := 2
            backrunOutAmount := 1
            solChange := 1
            tokenChange := 0
            isSell := false }
        permanentTokenData := some { rawTokenMetadata := some { symbol := some "USDC" } } } }

/-! ## TimeSeriesAggregator: live balance chart and rate snapshots -/

/-- One chart point `{ time, balance }` (timestamp in ms from
`Date.getTime()`, balance a Prometheus sample value). -/
structure BalancePoint where
  time : Int
  balance : Rat
deriving DecidableEq, Repr

/-- The `setBalanceChartData` functional updater inside `fetchLatestBalance`
(Dashboard.tsx lines 136-147): reject the new point when the list is
non-empty and the last retained point's time is `>=` the new timestamp,
otherwise append it at the end.  `prevData.length > 0 &&
prevData[prevData.length - 1]` corresponds to `getLast? = some last`. -/
def appendLiveBalance (prevData : List BalancePoint)
    (newTimestamp : Int) (newBalance : Rat) : List BalancePoint :=
  match prevData.getLast? with
  | some last =>
    if last.time ≥ newTimestamp then prevData
    else prevData ++ [⟨newTimestamp, newBalance⟩]
  | none => prevData ++ [⟨newTimestamp, newBalance⟩]

/-- Folding a sequence of live-append calls (pairs of timestamp and value,
earliest first) over a series. -/
def appendAllBalances (init : List BalancePoint)
    (pts : List (Int × Rat)) : List BalancePoint :=
  pts.foldl (fun st p => appendLiveBalance st p.1 p.2) init

/-- Timestamps along the series are strictly increasing. -/
def strictlyIncreasing (l : List BalancePoint) : Prop :=
  l.Chain' (fun a b => a.time < b.time)

instance (l : List BalancePoint) : Decidable (strictlyIncreasing l) :=
  inferInstanceAs (Decidable (List.Chain' (fun a b : BalancePoint => a.time < b.time) l))

/-- Outcome of one instant query for one lookback label in
`fetchProfitPerHour` (Dashboard.tsx lines 179-205): the query throws; or the
result is not a non-empty vector; or the first entry has no value; or it
carries a numeric value. -/
inductive QueryOutcome where
  | queryFailure
  | noVector
  | noValue
  | value (v : Rat)
deriving DecidableEq, Repr

/-- The lookback-window labels iterated by `fetchProfitPerHour`. -/
def timeRanges : List String := ["1h", "3h", "6h", "12h", "24h"]

/-- The value stored for one label by the loop body of
`fetchProfitPerHour`: the sample value on success, `0` on every failure or
empty result. -/
def profitValue : QueryOutcome → Rat
  | .value v => v
  | _ => 0

/-- `fetchProfitPerHour`: one instant query per label, building the
`profits` mapping (as an association list in label order), which is then
published with a single `setProfitPerHour(profits)`. -/
def fetchProfitPerHour (outcome : String → QueryOutcome) :
    List (String × Rat) :=
  timeRanges.map (fun range => (range, profitValue (outcome range)))

/-- The state transition on the published snapshot: the single
`setProfitPerHour(profits)` call replaces the whole previous mapping. -/
def profitSnapshotUpdate (_prevSnapshot : List (String × Rat))
    (outcome : String → QueryOutcome) : List (String × Rat) :=
  fetchProfitPerHour outcome

/-! ## EventFeedClient: WebSocket lifecycle, reconnect policy, cleanup

The WebSocket effect (Dashboard.tsx lines 222-370) is modelled as an
explicit state machine.  The closure variables (`websocket`,
`reconnectAttempts`, the three interval ids) become fields of
`ClientState`; each handler / timer callback becomes a function
`ClientState → ClientState`.  The id of the `setTimeout` scheduled in
`onclose` is discarded by the source, so pending reconnect timeouts are
tracked as a FIFO list of (target url, delay ms) that nothing in the
source can cancel.  Counters (`fallbackPollCount`, `socketsCreated`,
`fallbackStarts`, `reconnectStarts`) record observable effects. -/

def primaryWsUrl : String := "ws://208.91.110.246:6287/ws/livefeed"

def fallbackWsUrl : String := "ws://136.144.59.181:6287/ws/livefeed"

def maxReconnectAttempts : Nat := 10

def reconnectDelay : Nat := 3000

/-- Period (ms) of the fallback-poll interval started on exhausted
reconnects: `setInterval(fetchSandwichesFallback, 10000)`. -/
def fallbackPollIntervalMs : Nat := 10000

/-- Period (ms) of the periodic-reconnect interval started on exhausted
reconnects: `setInterval(..., 30000)`. -/
def periodicReconnectIntervalMs : Nat := 30000

/-- Period (ms) of the initial backup fallback fetch interval:
`setInterval(fetchSandwichesFallback, 30000)`. -/
def initialFallbackIntervalMs : Nat := 30000

/-- A WebSocket instance: the url it was opened on, whether its `onclose`
handler has been replaced by a no-op (cleanup does this), and whether it is
closed (close event delivered or `close()` called). -/
structure Socket where
  url : String
  closeDetached : Bool
  closed : Bool
deriving DecidableEq, Repr

/-- The mutable state of the WebSocket effect closure plus effect
counters. -/
structure ClientState where
  websocket : Option Socket
  reconnectAttempts : Nat
  /-- Active `setInterval` handles are pairs of (timer id, period ms). -/
  fallbackIntervalId : Option (Nat × Nat)
  reconnectIntervalId : Option (Nat × Nat)
  initialFallbackIntervalId : Option (Nat × Nat)
  /-- Reconnect `setTimeout`s scheduled by `onclose` and not yet fired;
  their ids are discarded by the source, so nothing can clear them. -/
  pendingReconnects : List (String × Nat)
  nextTimerId : Nat
  stopped : Bool
  fallbackPollCount : Nat
  socketsCreated : Nat
  fallbackStarts : Nat
  reconnectStarts : Nat
deriving DecidableEq, Repr

/-- State of the closure variables right after the effect body declares
them (all null / 0). -/
def initialClientState : ClientState :=
  { websocket := none
    reconnectAttempts := 0
    fallbackIntervalId := none
    reconnectIntervalId := none
    initialFallbackIntervalId := none
    pendingReconnects := []
    nextTimerId := 0
    stopped := false
    fallbackPollCount := 0
    socketsCreated := 0
    fallbackStarts := 0
    reconnectStarts := 0 }

/-- `fetchSandwichesFallback()` viewed from the client machine: one
fallback poll is issued (its effect on the retained list is modelled
separately by `fetchSandwichesFallbackUpdate`). -/
def issueFallbackPoll (s : ClientState) : ClientState :=
  { s with fallbackPollCount := s.fallbackPollCount + 1 }

/-- `connectWebSocket(url)` (Dashboard.tsx lines 280-351): close any prior
socket (an explicit `close()` yields a normal close code, on which the
handler returns without touching state) and open a new socket with all four
handlers attached. -/
def connectWebSocket (url : String) (s : ClientState) : ClientState :=
  { s with
    websocket := some { url := url, closeDetached := false, closed := false }
    socketsCreated := s.socketsCreated + 1 }

/-- The effect body after defining `connectWebSocket`:
`connectWebSocket(primaryWsUrl)` then
`initialFallbackIntervalId = setInterval(fetchSandwichesFallback, 30000)`. -/
def startClient : ClientState :=
  let s := connectWebSocket primaryWsUrl initialClientState
  { s with
    initialFallbackIntervalId := some (s.nextTimerId, initialFallbackIntervalMs)
    nextTimerId := s.nextTimerId + 1 }

/-- `websocket.onopen`: reset the attempt counter and clear (and null out)
the fallback and periodic-reconnect intervals. -/
def openEvt (s : ClientState) : ClientState :=
  match s.websocket with
  | none => s
  | some sock =>
    if sock.closed then s
    else
      { s with
        reconnectAttempts := 0
        fallbackIntervalId := none
        reconnectIntervalId := none }

/-- `websocket.onerror`: one immediate fallback poll. -/
def errorEvt (s : ClientState) : ClientState :=
  match s.websocket with
  | none => s
  | some sock => if sock.closed then s else issueFallbackPoll s

/-- The body of `websocket.onclose` (Dashboard.tsx lines 317-350), with the
closure-captured `url` of the socket it is attached to.  Normal close codes
(1000, 1005) return immediately.  Below `maxReconnectAttempts`: increment
the counter, schedule one reconnect to the alternate url after
`reconnectDelay`, and issue one fallback poll.  Otherwise enter fallback
mode: start the 10s fallback-poll interval and the 30s periodic-reconnect
interval, each only if not already running. -/
def oncloseBody (code : Nat) (url : String) (s : ClientState) : ClientState :=
  if code = 1000 ∨ code = 1005 then s
  else if s.reconnectAttempts < maxReconnectAttempts then
    let nextUrl := if url = primaryWsUrl then fallbackWsUrl else primaryWsUrl
    let s1 :=
      { s with
        reconnectAttempts := s.reconnectAttempts + 1
        pendingReconnects := s.pendingReconnects ++ [(nextUrl, reconnectDelay)] }
    issueFallbackPoll s1
  else
    let s1 :=
      match s.fallbackIntervalId with
      | some _ => s
      | none =>
        { s with
          fallbackIntervalId := some (s.nextTimerId, fallbackPollIntervalMs)
          nextTimerId := s.nextTimerId + 1
          fallbackStarts := s.fallbackStarts + 1 }
    match s1.reconnectIntervalId with
    | some _ => s1
    | none =>
      { s1 with
        reconnectIntervalId := some (s1.nextTimerId, periodicReconnectIntervalMs)
        nextTimerId := s1.nextTimerId + 1
        reconnectStarts := s1.reconnectStarts + 1 }

/-- Delivery of a close event with the given code: fires only if a socket
exists, is not yet closed, and its `onclose` has not been detached; the
socket is closed by the event, then the handler body runs. -/
def closeEvt (code : Nat) (s : ClientState) : ClientState :=
  match s.websocket with
  | none => s
  | some sock =>
    if sock.closeDetached ∨ sock.closed then s
    else
      oncloseBody code sock.url
        { s with websocket := some { sock with closed := true } }

/-- Firing of the oldest pending reconnect `setTimeout`:
`connectWebSocket(nextUrl)` runs (unconditionally — the source stores no
flag a fired timeout could check). -/
def fireReconnect (s : ClientState) : ClientState :=
  match s.pendingReconnects with
  | [] => s
  | (url, _) :: rest =>
    connectWebSocket url { s with pendingReconnects := rest }

/-- Firing of the periodic-reconnect interval (30s, fallback mode): reset
the attempt counter and reconnect to the primary url. -/
def periodicReconnectFires (s : ClientState) : ClientState :=
  match s.reconnectIntervalId with
  | none => s
  | some _ => connectWebSocket primaryWsUrl { s with reconnectAttempts := 0 }

/-- Firing of the fallback-poll interval (10s, fallback mode). -/
def fallbackIntervalFires (s : ClientState) : ClientState :=
  match s.fallbackIntervalId with
  | none => s
  | some _ => issueFallbackPoll s

/-- The effect cleanup (Dashboard.tsx lines 359-369): replace the current
socket's `onclose` by a no-op, close the socket, and clear the three
interval ids.  (The reconnect `setTimeout` ids were never stored, so
`pendingReconnects` is untouched.) -/
def cleanup (s : ClientState) : ClientState :=
  let s1 :=
    match s.websocket with
    | none => s
    | some sock =>
      { s with websocket := some { sock with closeDetached := true, closed := true } }
  { s1 with
    fallbackIntervalId := none
    reconnectIntervalId := none
    initialFallbackIntervalId := none
    stopped := true }

/-- The spec-level `ConnectionState.FallbackPolling` mode, realized in the
source by the fallback-poll interval being active. -/
def inFallbackPolling (s : ClientState) : Bool :=
  s.fallbackIntervalId.isSome

/-- One full abnormal-close cycle: the current socket closes with the given
abnormal code, then the reconnect timeout it scheduled (if any) fires and
opens the next socket. -/
def abnormalCloseCycle (code : Nat) (s : ClientState) : ClientState :=
  fireReconnect (closeEvt code s)

/-- `n` consecutive abnormal-close cycles. -/
def abnormalCloses (code : Nat) : Nat → ClientState → ClientState
  | 0, s => s
  | n + 1, s => abnormalCloses code n (abnormalCloseCycle code s)

/-! ## Helper lemmas about `updateSandwiches` -/

theorem updateSandwiches_eq_of_dup (ns : SandwichData) (prev : List SandwichData)
    (slot : Int) (h1 : sandwichSlot? ns = some slot)
    (h2 : ∃ s ∈ prev, sandwichSlot? s = some slot) :
    updateSandwiches (some ns) prev = prev := by
  obtain ⟨s, hs, he⟩ := h2
  cases hf : prev.findIdx? (fun s => sandwichSlot? s == some slot) with
  | some i => simp [updateSandwiches, h1, hf]
  | none =>
    rw [List.findIdx?_eq_none_iff] at hf
    have := hf s hs
    simp [he] at this

theorem updateSandwiches_eq_of_fresh (ns : SandwichData) (prev : List SandwichData)
    (slot : Int) (h1 : sandwichSlot? ns = some slot)
    (h2 : ∀ s ∈ prev, sandwichSlot? s ≠ some slot) :
    updateSandwiches (some ns) prev = (ns :: prev).take 50 := by
  have hf : prev.findIdx? (fun s => sandwichSlot? s == some slot) = none := by
    rw [List.findIdx?_eq_none_iff]
    intro s hs
    simpa using h2 s hs
  simp [updateSandwiches, h1, hf]

theorem updateSandwiches_nodup (m : Option SandwichData) (st : List SandwichData)
    (h : noDupSlots st) : noDupSlots (updateSandwiches m st) := by
  match m with
  | none => exact h
  | some ns =>
    match hslot : sandwichSlot? ns with
    | none => simpa [updateSandwiches, hslot] using h
    | some slot =>
      cases hf : st.findIdx? (fun s => sandwichSlot? s == some slot) with
      | some i => simpa [updateSandwiches, hslot, hf] using h
      | none =>
        rw [List.findIdx?_eq_none_iff] at hf
        have hcons : noDupSlots (ns :: st) := by
          unfold noDupSlots at h ⊢
          rw [List.map_cons, List.nodup_cons]
          refine ⟨?_, h⟩
          intro hmem
          obtain ⟨s, hs, he⟩ := List.mem_map.mp hmem
          have := hf s hs
          rw [he, hslot] at this
          simp at this
        have : updateSandwiches (some ns) st = (ns :: st).take 50 := by
          simp [updateSandwiches, hslot, List.findIdx?_eq_none_iff.mpr hf]
        rw [this]
        unfold noDupSlots at hcons ⊢
        rw [List.map_take]
        exact hcons.sublist (List.take_sublist _ _)

theorem updateSandwiches_length_le (m : Option SandwichData)
    (st : List SandwichData) (h : st.length ≤ 50) :
    (updateSandwiches m st).length ≤ 50 := by
  match m with
  | none => exact h
  | some ns =>
    match hslot : sandwichSlot? ns with
    | none => simpa [updateSandwiches, hslot] using h
    | some slot =>
      cases hf : st.findIdx? (fun s => sandwichSlot? s == some slot) with
      | some i => simpa [updateSandwiches, hslot, hf] using h
      | none =>
        simp [updateSandwiches, hslot, hf]

theorem onmessageUpdate_nodup (ev : WireMessage) (prev : List SandwichData)
    (h : noDupSlots prev) : noDupSlots (onmessageUpdate ev prev) := by
  cases ev with
  | unparseable => exact h
  | parsed v =>
    cases v with
    | none => exact h
    | some d =>
      obtain ⟨ty, da⟩ := d
      cases da with
      | none => exact h
      | some p =>
        obtain ⟨pk, sw, ptd⟩ := p
        cases sw with
        | none => exact h
        | some s =>
          show noDupSlots (updateSandwiches (some ⟨ty, some ⟨pk, some s, ptd⟩⟩) prev)
          exact updateSandwiches_nodup _ _ h

theorem fetchSandwichesFallbackUpdate_nodup (o : FallbackOutcome)
    (prev : List SandwichData) (h : noDupSlots prev) :
    noDupSlots (fetchSandwichesFallbackUpdate o prev) := by
  cases o with
  | payload v => exact updateSandwiches_nodup v prev h
  | queryFailure => exact h
  | noVector => exact h
  | noValue => exact h
  | parseError => exact h

theorem appendAll_nodup (msgs : List (Option SandwichData)) :
    ∀ init : List SandwichData, noDupSlots init → noDupSlots (appendAll init msgs) := by
  induction msgs with
  | nil => intro init h; exact h
  | cons m rest ih =>
    intro init h
    exact ih (updateSandwiches m init) (updateSandwiches_nodup m init h)

theorem appendAll_length_le (msgs : List (Option SandwichData)) :
    ∀ init : List SandwichData, init.length ≤ 50 → (appendAll init msgs).length ≤ 50 := by
  induction msgs with
  | nil => intro init h; exact h
  | cons m rest ih =>
    intro init h
    exact ih (updateSandwiches m init) (updateSandwiches_length_le m init h)

/-! ## Claim theorems: EventStore -/

/-- C1: every sequence of `append` calls (push message, fallback poll, or on
top of a loaded state) keeps slot identity keys unique in the retained list;
an append whose slot is already retained is a no-op (first-seen wins), and
otherwise the record is prepended (then clamped to capacity). -/
theorem append_preserves_unique_slots
    (init : List SandwichData) (h : noDupSlots init)
    (msgs : List (Option SandwichData)) :
    noDupSlots (appendAll init msgs) ∧
    (∀ ns prev slot, sandwichSlot? ns = some slot →
      (∃ s ∈ prev, sandwichSlot? s = some slot) →
      updateSandwiches (some ns) prev = prev) ∧
    (∀ ns prev slot, sandwichSlot? ns = some slot →
      (∀ s ∈ prev, sandwichSlot? s ≠ some slot) →
      updateSandwiches (some ns) prev = (ns :: prev).take 50) ∧
    (∀ ev prev, noDupSlots prev → noDupSlots (onmessageUpdate ev prev)) ∧
    (∀ o prev, noDupSlots prev →
      noDupSlots (fetchSandwichesFallbackUpdate o prev)) :=
  ⟨appendAll_nodup msgs init h,
   fun ns prev slot h1 h2 => updateSandwiches_eq_of_dup ns prev slot h1 h2,
   fun ns prev slot h1 h2 => updateSandwiches_eq_of_fresh ns prev slot h1 h2,
   fun ev prev hp => onmessageUpdate_nodup ev prev hp,
   fun o prev hp => fetchSandwichesFallbackUpdate_nodup o prev hp⟩

theorem append_preserves_unique_slots_witness :
    noDupSlots ([] : List SandwichData) ∧
    noDupSlots (appendAll [] [some (mkRecord 100), some (mkRecord 100)]) :=
  ⟨by decide,
   (append_preserves_unique_slots [] (by decide)
     [some (mkRecord 100), some (mkRecord 100)]).1⟩

/-- C2: the retained list has length at most 50 after any sequence of
appends from a state within capacity, and after a cache load; 51 sequential
appends with distinct slots leave exactly 50 records with the oldest (slot
0, the first appended) evicted. -/
theorem append_capacity_bound
    (init : List SandwichData) (h : init.length ≤ 50)
    (msgs : List (Option SandwichData)) :
    (appendAll init msgs).length ≤ 50 ∧
    (∀ c, (getInitialSandwiches c).length ≤ 50) ∧
    (appendAll [] ((List.range 51).map (fun i => some (mkRecord i)))).length = 50 ∧
    (∀ s ∈ appendAll [] ((List.range 51).map (fun i => some (mkRecord i))),
      sandwichSlot? s ≠ some 0) := by
  refine ⟨appendAll_length_le msgs init h, ?_, by decide, by decide⟩
  intro c
  cases c with
  | array xs => simp [getInitialSandwiches]
  | absent => simp [getInitialSandwiches]
  | unreadable => simp [getInitialSandwiches]
  | notArray => simp [getInitialSandwiches]

theorem append_capacity_bound_witness :
    ([] : List SandwichData).length ≤ 50 ∧
    (appendAll [] [some (mkRecord 7)]).length ≤ 50 :=
  ⟨by decide, (append_capacity_bound [] (by decide) [some (mkRecord 7)]).1⟩

/-- C7: `getInitialSandwiches` is total (never fails its caller); an absent,
unreadable, or non-array cache yields the empty list, and a cached array is
clamped to its first 50 entries. -/
theorem load_never_fails :
    getInitialSandwiches .absent = [] ∧
    getInitialSandwiches .unreadable = [] ∧
    getInitialSandwiches .notArray = [] ∧
    ∀ xs, getInitialSandwiches (.array xs) = xs.take 50 :=
  ⟨rfl, rfl, rfl, fun _ => rfl⟩

/-- C8: every malformed input — an unparseable push message, a parsed
message without a `data.sandwich` payload, and a fallback-poll outcome that
fails (query error, empty result, missing value, payload parse error, or a
payload without the expected shape) — leaves the retained list unchanged. -/
theorem malformed_inputs_dropped :
    (∀ prev, onmessageUpdate .unparseable prev = prev) ∧
    (∀ prev, onmessageUpdate (.parsed none) prev = prev) ∧
    (∀ prev d, sandwichSlot? d = none →
      onmessageUpdate (.parsed (some d)) prev = prev) ∧
    (∀ prev, fetchSandwichesFallbackUpdate .queryFailure prev = prev) ∧
    (∀ prev, fetchSandwichesFallbackUpdate .noVector prev = prev) ∧
    (∀ prev, fetchSandwichesFallbackUpdate .noValue prev = prev) ∧
    (∀ prev, fetchSandwichesFallbackUpdate .parseError prev = prev) ∧
    (∀ prev v, (v.bind fun d => sandwichSlot? d) = none →
      fetchSandwichesFallbackUpdate (.payload v) prev = prev) := by
  refine ⟨fun _ => rfl, fun _ => rfl, ?_, fun _ => rfl, fun _ => rfl,
    fun _ => rfl, fun _ => rfl, ?_⟩
  · intro prev d hd
    obtain ⟨ty, da⟩ := d
    cases da with
    | none => rfl
    | some p =>
      obtain ⟨pk, sw, ptd⟩ := p
      cases sw with
      | none => rfl
      | some s => simp [sandwichSlot?] at hd
  · intro prev v hv
    match v with
    | none => rfl
    | some d =>
      simp only [Option.some_bind] at hv
      simp [fetchSandwichesFallbackUpdate, updateSandwiches, hv]

theorem malformed_inputs_dropped_witness :
    sandwichSlot? ⟨none, none⟩ = none ∧
    onmessageUpdate (.parsed (some ⟨none, none⟩)) [mkRecord 1] = [mkRecord 1] :=
  ⟨by decide,
   malformed_inputs_dropped.2.2.1 [mkRecord 1] ⟨none, none⟩ (by decide)⟩

/-- C10: appending a record whose slot is already retained returns the
previous list itself, so the state value is unchanged and the
localStorage write-through effect (keyed on the state changing) does not
run. -/
theorem duplicate_append_frame (ns : SandwichData) (prev : List SandwichData)
    (slot : Int) (h1 : sandwichSlot? ns = some slot)
    (h2 : ∃ s ∈ prev, sandwichSlot? s = some slot) :
    updateSandwiches (some ns) prev = prev ∧
    saveEffectWrites prev (updateSandwiches (some ns) prev) = false := by
  have he := updateSandwiches_eq_of_dup ns prev slot h1 h2
  refine ⟨he, ?_⟩
  rw [he]
  simp [saveEffectWrites]

theorem duplicate_append_frame_witness :
    sandwichSlot? (mkRecord 100) = some 100 ∧
    updateSandwiches (some (mkRecord 100)) [mkRecord 100] = [mkRecord 100] ∧
    saveEffectWrites [mkRecord 100]
      (updateSandwiches (some (mkRecord 100)) [mkRecord 100]) = false := by
  have h := duplicate_append_frame (mkRecord 100) [mkRecord 100] 100
    (by decide) ⟨mkRecord 100, by decide⟩
  exact ⟨by decide, h.1, h.2⟩

/-! ## Claim theorems: TimeSeriesAggregator -/

theorem appendLiveBalance_mono (l : List BalancePoint) (t : Int) (v : Rat)
    (h : strictlyIncreasing l) : strictlyIncreasing (appendLiveBalance l t v) := by
  cases hl : l.getLast? with
  | none =>
    rw [List.getLast?_eq_none_iff] at hl
    subst hl
    simp [appendLiveBalance, strictlyIncreasing]
  | some last =>
    by_cases hge : last.time ≥ t
    · simpa [appendLiveBalance, hl, hge] using h
    · have : appendLiveBalance l t v = l ++ [⟨t, v⟩] := by
        simp [appendLiveBalance, hl, hge]
      rw [this]
      unfold strictlyIncreasing at h ⊢
      rw [List.chain'_append]
      refine ⟨h, List.chain'_singleton _, ?_⟩
      intro x hx y hy
      rw [hl] at hx
      simp only [Option.mem_def, Option.some.injEq] at hx
      simp only [List.head?_cons, Option.mem_def, Option.some.injEq] at hy
      subst hx; subst hy
      exact lt_of_not_ge hge

theorem appendAllBalances_mono (pts : List (Int × Rat)) :
    ∀ init : List BalancePoint, strictlyIncreasing init →
      strictlyIncreasing (appendAllBalances init pts) := by
  induction pts with
  | nil => exact fun init h => h
  | cons p rest ih =>
    intro init h
    exact ih (appendLiveBalance init p.1 p.2) (appendLiveBalance_mono init p.1 p.2 h)

/-- C5: the live-append updater accepts a point only when its timestamp is
strictly greater than the last retained point's (equal or smaller
timestamps leave the series unchanged and are rejected silently), so any
sequence of live appends keeps the series strictly increasing in
timestamp. -/
theorem live_append_monotone
    (init : List BalancePoint) (hinit : strictlyIncreasing init)
    (pts : List (Int × Rat)) :
    strictlyIncreasing (appendAllBalances init pts) ∧
    (∀ prev (last : BalancePoint) t v, prev.getLast? = some last →
      t ≤ last.time → appendLiveBalance prev t v = prev) ∧
    (∀ prev (last : BalancePoint) t v, prev.getLast? = some last →
      last.time < t → appendLiveBalance prev t v = prev ++ [⟨t, v⟩]) := by
  refine ⟨appendAllBalances_mono pts init hinit, ?_, ?_⟩
  · intro prev last t v hlast hle
    simp [appendLiveBalance, hlast, hle]
  · intro prev last t v hlast hlt
    simp [appendLiveBalance, hlast, not_le.mpr hlt]

theorem live_append_monotone_witness :
    strictlyIncreasing ([⟨5, 1⟩] : List BalancePoint) ∧
    strictlyIncreasing (appendAllBalances [⟨5, 1⟩] [(5, 2), (6, 3)]) :=
  ⟨List.chain'_singleton _,
   (live_append_monotone [⟨5, 1⟩] (List.chain'_singleton _) [(5, 2), (6, 3)]).1⟩

theorem lookup_map_congr (r : String) (f g : String → Rat) (hfg : f r = g r) :
    ∀ L : List String,
      (L.map fun x => (x, f x)).lookup r = (L.map fun x => (x, g x)).lookup r := by
  intro L
  induction L with
  | nil => rfl
  | cons x rest ih =>
    simp only [List.map_cons, List.lookup]
    cases hx : r == x with
    | true =>
      have : r = x := eq_of_beq hx
      subst this
      rw [hfg]
    | false => exact ih

theorem fetchProfitPerHour_lookup (o : String → QueryOutcome) (r : String)
    (hr : r ∈ timeRanges) :
    (fetchProfitPerHour o).lookup r = some (profitValue (o r)) := by
  simp only [timeRanges, List.mem_cons, List.not_mem_nil, or_false] at hr
  rcases hr with rfl | rfl | rfl | rfl | rfl <;> rfl

/-- C9: each lookback label's value in the published rate snapshot depends
only on that label's own query outcome; a failed or empty query for a label
yields 0 for that label, a successful one yields its sample value, and the
snapshot state transition replaces the whole previous mapping with the
freshly built one in a single assignment. -/
theorem profit_snapshot_spec (o o2 : String → QueryOutcome) (r : String)
    (hr : r ∈ timeRanges) :
    ((∀ v, o r ≠ .value v) → (fetchProfitPerHour o).lookup r = some 0) ∧
    (∀ v, o r = .value v → (fetchProfitPerHour o).lookup r = some v) ∧
    (o r = o2 r →
      (fetchProfitPerHour o).lookup r = (fetchProfitPerHour o2).lookup r) ∧
    (∀ prev, profitSnapshotUpdate prev o = fetchProfitPerHour o) := by
  refine ⟨?_, ?_, ?_, fun _ => rfl⟩
  · intro hnv
    rw [fetchProfitPerHour_lookup o r hr]
    cases ho : o r with
    | value v => exact absurd ho (hnv v)
    | queryFailure => rfl
    | noVector => rfl
    | noValue => rfl
  · intro v hv
    rw [fetchProfitPerHour_lookup o r hr, hv]
    rfl
  · intro heq
    exact lookup_map_congr r _ _ (by rw [heq]) timeRanges

theorem profit_snapshot_spec_witness :
    ("1h" ∈ timeRanges) ∧
    (fetchProfitPerHour (fun _ => .queryFailure)).lookup "1h" = some 0 :=
  ⟨by decide,
   (profit_snapshot_spec (fun _ => .queryFailure) (fun _ => .queryFailure) "1h"
     (by decide)).1 (fun v h => QueryOutcome.noConfusion h)⟩

/-! ## Claim theorems: EventFeedClient -/

/-- C6: `onclose` classifies by close code.  The two designated normal
codes (1000, 1005) leave the whole client state untouched apart from the
socket itself becoming closed — in particular no reconnect is scheduled.
Any other code, while the attempt counter is below `maxReconnectAttempts`,
increments the counter, schedules exactly one reconnect after the fixed 3s
delay to the endpoint alternate to the closing socket's, and issues exactly
one immediate fallback poll, leaving the fallback-mode intervals alone. -/
theorem onclose_classification (s : ClientState) (sock : Socket) (code : Nat)
    (hw : s.websocket = some sock) (hd : sock.closeDetached = false)
    (hc : sock.closed = false) :
    ((code = 1000 ∨ code = 1005) →
      closeEvt code s = { s with websocket := some { sock with closed := true } }) ∧
    (¬(code = 1000 ∨ code = 1005) →
      s.reconnectAttempts < maxReconnectAttempts →
      (closeEvt code s).reconnectAttempts = s.reconnectAttempts + 1 ∧
      (closeEvt code s).pendingReconnects = s.pendingReconnects ++
        [((if sock.url = primaryWsUrl then fallbackWsUrl else primaryWsUrl),
          reconnectDelay)] ∧
      (closeEvt code s).fallbackPollCount = s.fallbackPollCount + 1 ∧
      (closeEvt code s).fallbackIntervalId = s.fallbackIntervalId ∧
      (closeEvt code s).reconnectIntervalId = s.reconnectIntervalId ∧
      (closeEvt code s).fallbackStarts = s.fallbackStarts ∧
      (closeEvt code s).reconnectStarts = s.reconnectStarts) := by
  constructor
  · intro h
    simp [closeEvt, hw, hd, hc, oncloseBody, h]
  · intro h hlt
    simp [closeEvt, hw, hd, hc, oncloseBody, h, hlt, issueFallbackPoll]

theorem onclose_classification_witness :
    (closeEvt 1006 startClient).reconnectAttempts =
      startClient.reconnectAttempts + 1 ∧
    (closeEvt 1006 startClient).pendingReconnects =
      [(fallbackWsUrl, reconnectDelay)] ∧
    (closeEvt 1006 startClient).fallbackPollCount =
      startClient.fallbackPollCount + 1 ∧
    (closeEvt 1006 startClient).fallbackIntervalId = none ∧
    (closeEvt 1006 startClient).reconnectIntervalId = none := by
  obtain ⟨-, h⟩ := onclose_classification startClient
    ⟨primaryWsUrl, false, false⟩ 1006 (by decide) rfl rfl
  obtain ⟨h1, h2, h3, h4, h5, -, -⟩ := h (by decide) (by decide)
  refine ⟨h1, ?_, h3, ?_, ?_⟩
  · rw [h2]; decide
  · rw [h4]; decide
  · rw [h5]; decide

theorem oncloseBody_fallbackStarts (code : Nat) (url : String)
    (s : ClientState) (h : s.fallbackIntervalId.isSome = true) :
    (oncloseBody code url s).fallbackStarts = s.fallbackStarts := by
  obtain ⟨i, hi⟩ := Option.isSome_iff_exists.mp h
  unfold oncloseBody
  split
  · rfl
  · split
    · rfl
    · cases hr : s.reconnectIntervalId <;> simp [hi, hr]

theorem oncloseBody_reconnectStarts (code : Nat) (url : String)
    (s : ClientState) (h : s.reconnectIntervalId.isSome = true) :
    (oncloseBody code url s).reconnectStarts = s.reconnectStarts := by
  obtain ⟨i, hi⟩ := Option.isSome_iff_exists.mp h
  unfold oncloseBody
  split
  · rfl
  · split
    · rfl
    · cases hf : s.fallbackIntervalId <;> simp [hf, hi]

theorem closeEvt_fallbackStarts (code : Nat) (s : ClientState)
    (h : s.fallbackIntervalId.isSome = true) :
    (closeEvt code s).fallbackStarts = s.fallbackStarts := by
  unfold closeEvt
  cases hw : s.websocket with
  | none => rfl
  | some sock =>
    by_cases hdc : sock.closeDetached ∨ sock.closed
    · simp [hdc]
    · simp only [hdc, if_false]
      exact oncloseBody_fallbackStarts code sock.url _ h

theorem closeEvt_reconnectStarts (code : Nat) (s : ClientState)
    (h : s.reconnectIntervalId.isSome = true) :
    (closeEvt code s).reconnectStarts = s.reconnectStarts := by
  unfold closeEvt
  cases hw : s.websocket with
  | none => rfl
  | some sock =>
    by_cases hdc : sock.closeDetached ∨ sock.closed
    · simp [hdc]
    · simp only [hdc, if_false]
      exact oncloseBody_reconnectStarts code sock.url _ h

/-- C4 counterexample: starting from the initial state, after exactly
`maxReconnectAttempts` (10) consecutive abnormal closes (each followed by
its scheduled reconnect firing) the client has NOT entered fallback
polling: neither the fallback-poll interval nor the periodic-reconnect
interval has been started; the attempt counter merely reached 10 and a
tenth reconnect was attempted. -/
theorem fallback_not_entered_at_ten_closes :
    inFallbackPolling (abnormalCloses 1006 10 startClient) = false ∧
    (abnormalCloses 1006 10 startClient).fallbackStarts = 0 ∧
    (abnormalCloses 1006 10 startClient).reconnectStarts = 0 ∧
    (abnormalCloses 1006 10 startClient).reconnectAttempts = 10 := by
  decide

/-- C4 (amended): starting from the initial state with attempt counter 0,
exactly `maxReconnectAttempts + 1` (11) consecutive abnormal closes — the
initial connection's failure plus the failures of the 10 reconnect
attempts — cause the client to enter FallbackPolling, and it is entered
exactly once: the fallback-poll interval and the periodic-reconnect
interval are each started exactly once, and no duplicate interval is
created by further abnormal closes while an interval is already active. -/
theorem fallback_entered_once_after_eleven_closes :
    (inFallbackPolling (abnormalCloses 1006 11 startClient) = true ∧
     (abnormalCloses 1006 11 startClient).fallbackStarts = 1 ∧
     (abnormalCloses 1006 11 startClient).reconnectStarts = 1 ∧
     (abnormalCloses 1006 11 startClient).fallbackIntervalId =
       some (1, fallbackPollIntervalMs) ∧
     (abnormalCloses 1006 11 startClient).reconnectIntervalId =
       some (2, periodicReconnectIntervalMs)) ∧
    ((abnormalCloses 1006 11
        (periodicReconnectFires (abnormalCloses 1006 11 startClient))).fallbackStarts = 1 ∧
     (abnormalCloses 1006 11
        (periodicReconnectFires (abnormalCloses 1006 11 startClient))).reconnectStarts = 1) ∧
    (∀ (s : ClientState) (code : Nat), s.fallbackIntervalId.isSome = true →
      (closeEvt code s).fallbackStarts = s.fallbackStarts) ∧
    (∀ (s : ClientState) (code : Nat), s.reconnectIntervalId.isSome = true →
      (closeEvt code s).reconnectStarts = s.reconnectStarts) :=
  ⟨by decide, by decide,
   fun s code h => closeEvt_fallbackStarts code s h,
   fun s code h => closeEvt_reconnectStarts code s h⟩

theorem fallback_entered_once_after_eleven_closes_witness :
    (abnormalCloses 1006 11 startClient).fallbackIntervalId.isSome = true ∧
    (closeEvt 1006 (abnormalCloses 1006 11 startClient)).fallbackStarts =
      (abnormalCloses 1006 11 startClient).fallbackStarts :=
  ⟨by decide,
   fallback_entered_once_after_eleven_closes.2.2.1
     (abnormalCloses 1006 11 startClient) 1006 (by decide)⟩

/-- C3, evaluated at the failing timing: the id of the reconnect
`setTimeout` scheduled by an abnormal close is never stored, so the effect
cleanup cannot cancel it; after `cleanup` runs, the timeout is still
pending, and when it fires it runs `connectWebSocket`, creating a new
socket with live callbacks even though the client was stopped. -/
theorem reconnect_timer_survives_cleanup :
    (cleanup (closeEvt 1006 startClient)).stopped = true ∧
    (cleanup (closeEvt 1006 startClient)).pendingReconnects =
      [(fallbackWsUrl, reconnectDelay)] ∧
    (fireReconnect (cleanup (closeEvt 1006 startClient))).socketsCreated =
      (cleanup (closeEvt 1006 startClient)).socketsCreated + 1 ∧
    (fireReconnect (cleanup (closeEvt 1006 startClient))).websocket =
      some { url := fallbackWsUrl, closeDetached := false, closed := false } := by
  decide

end Dashboard
